import Mathlib

/-!
Verification of the Face-Tracker repository's signal-processing and
activation-gesture pipeline against its design specification.

The repository is a family of near-duplicate browser scripts.  Each variant
combines four pieces of recurring logic: a baseline calibrator (accumulate
early-frame samples of a scalar signal, freeze their mean), a gesture
classifier (threshold against the frozen baseline, with a debounce window),
a gaze mapper (normalized landmark offsets to viewport coordinates, with
mirroring and clamping, plus an optional external WebGazer estimate guarded
by a freshness test), and an exponential smoothing filter.

All numeric quantities (signals, timestamps, coordinates) are embedded as
rationals; machine floating point is abstracted to exact field arithmetic.
Each definition below is a direct translation of the JavaScript of one
variant, named after the source file it comes from:
  * `calibIngest`        — the accumulate-then-freeze baseline pattern
                           (src/unnamed/part_001 lines 109-114 and its twins);
  * `p10Classify`        — the combined blink/mouth click logic of
                           src/unnamed/part_010 lines 242-302;
  * `p1Frame`/`p1Target` — the per-frame pipeline of src/unnamed/part_001;
  * `scriptChooseTarget`, `scriptDoubleSmooth`, `scriptHaveWebGazer`
                         — the hybrid WebGazer variant in src/script.js;
  * `p7HaveWG`           — the freshness check of src/unnamed/part_007;
  * `v2DisplayX`, `p1DisplayX` — the horizontal mapping/mirroring pipelines
                           of the second src/script.js variant and of
                           src/unnamed/part_001;
  * `smooth`/`smoothIter` — the exponential smoothing filter.
-/

namespace FaceTracker

/-- State of a baseline calibrator: the collected samples, the frozen
baseline (`none` until frozen, mirroring the JavaScript `null`), and the
`ready` flag.  Corresponds to the triple of globals
`mouthSamples` / `mouthBaseline` / `mouthReady` (and the `eye…` twins). -/
structure CalibState where
  samples : List ℚ
  baseline : Option ℚ
  ready : Bool
deriving DecidableEq

/-- Initial calibrator state: empty samples, `null` baseline, not ready. -/
def calibInit : CalibState := ⟨[], none, false⟩

/-- One ingest step of the baseline calibrator, translated from
`if (!mouthReady) { mouthSamples.push(g); if (mouthSamples.length > limit) {
mouthBaseline = mouthSamples.reduce((a,b)=>a+b,0)/mouthSamples.length;
mouthReady = true; } }` (src/unnamed/part_001 lines 109-114; the same shape
appears with limit 50 in src/script.js and limit 60 in src/unnamed/part_010).
When `ready` is already set the whole block is skipped by the source. -/
def calibIngest (limit : ℕ) (s : CalibState) (sample : ℚ) : CalibState :=
  if s.ready then s
  else if (s.samples ++ [sample]).length > limit then
    { samples := s.samples ++ [sample]
      baseline := some ((s.samples ++ [sample]).sum / ((s.samples ++ [sample]).length : ℚ))
      ready := true }
  else
    { s with samples := s.samples ++ [sample] }

/-- The exponential smoothing step `current += (target - current) * alpha`
(src/unnamed/part_001 lines 178-180, src/script.js lines 253-255, and
every other variant). -/
def smooth (current target alpha : ℚ) : ℚ := current + (target - current) * alpha

/-- Iterating the smoothing step with a constant target. -/
def smoothIter (target alpha current : ℚ) : ℕ → ℚ
  | 0 => current
  | n + 1 => smooth (smoothIter target alpha current n) target alpha

/-- Blink trigger of the second src/script.js variant (lines 497-500):
`isBlink = eyeGap < eyeBaseline * 0.55`, fired when additionally
`Date.now() - lastClick > 750`. -/
def blinkFiredJs2 (eyeGap eyeBaseline now lastClick : ℚ) : Bool :=
  decide (eyeGap < eyeBaseline * (11/20)) && decide (now - lastClick > 750)

/-- Mouth-open trigger of src/unnamed/part_001 (lines 116-117):
`mouthGap > mouthBaseline * 1.7` fired when `performance.now() - lastClick
> 900`. -/
def mouthFiredP1 (mouthGap mouthBaseline now lastClick : ℚ) : Bool :=
  decide (mouthGap > mouthBaseline * (17/10)) && decide (now - lastClick > 900)

/-- The double smoothing pass of the hybrid src/script.js variant
(lines 252-264): first `smoothX += (targetX - smoothX) * 0.25`, then
`const lerp = haveWebGazer ? 0.25 : 0.15; smoothX += (targetX - smoothX) *
lerp` applied to the same target within the same frame. -/
def scriptDoubleSmooth (s target : ℚ) (fresh : Bool) : ℚ :=
  let s1 := s + (target - s) * (1/4)
  let lerp : ℚ := if fresh then 1/4 else 3/20
  s1 + (target - s1) * lerp

/-- Modelled from the claim's words for comparison: a single exponential
smoothing step with the effective factor `1 - (1 - 0.25) * (1 - lerp)`. -/
def singleSmoothEffective (s target : ℚ) (fresh : Bool) : ℚ :=
  let lerp : ℚ := if fresh then 1/4 else 3/20
  s + (target - s) * (1 - (1 - 1/4) * (1 - lerp))

/-- Persistent classifier state of src/unnamed/part_010: the shared
activation timestamp `lastBlinkOrMouth` (line 9) and the two baseline
calibrators for the eye and mouth signals. -/
structure P10State where
  lastBlinkOrMouth : ℚ
  eyeCal : CalibState
  mouthCal : CalibState
deriving DecidableEq

/-- One face-frame of the classification logic of src/unnamed/part_010
(lines 242-302): first both baselines ingest their samples (lines 242-261),
then the click logic runs (lines 272-302).  Blink is checked first
(`fired = true` when `eyeGap < eyeBaseline * 0.55` and the shared debounce
window `now - lastBlinkOrMouth > 900` is open); the mouth check is guarded
by `!fired` (`mouthGap > mouthBaseline * 1.8`, same shared window).  On
`fired`, `lastBlinkOrMouth = now` (line 295).  Returns the `fired` flag and
the new state. -/
def p10Classify (st : P10State) (eyeGap mouthGap now : ℚ) : Bool × P10State :=
  let eyeCal := calibIngest 60 st.eyeCal eyeGap
  let mouthCal := calibIngest 60 st.mouthCal mouthGap
  let blinkFired := eyeCal.ready
    && decide (eyeGap < eyeCal.baseline.getD 0 * (11/20))
    && decide (now - st.lastBlinkOrMouth > 900)
  let fired := blinkFired
    || (!blinkFired && (mouthCal.ready
        && decide (mouthGap > mouthCal.baseline.getD 0 * (9/5))
        && decide (now - st.lastBlinkOrMouth > 900)))
  (fired, ⟨if fired then now else st.lastBlinkOrMouth, eyeCal, mouthCal⟩)

/-- Activation times of a run of part_010 face frames.  Each input triple is
`(eyeGap, mouthGap, timestamp)`; the returned list holds the timestamps of
the frames on which an activation fired. -/
def p10ActTimes (st : P10State) : List (ℚ × ℚ × ℚ) → List ℚ
  | [] => []
  | (e, m, t) :: rest =>
    if (p10Classify st e m t).1 then t :: p10ActTimes (p10Classify st e m t).2 rest
    else p10ActTimes (p10Classify st e m t).2 rest

/-- Concrete part_010 state for the end-to-end debounce scenario: eye
baseline frozen at 10, mouth calibrator still collecting, no activation
yet. -/
def c1ScenarioState : P10State := ⟨0, ⟨[10], some 10, true⟩, calibInit⟩

/-- The click feedback of src/unnamed/part_000 (lines 113-123):
`if (Date.now() - lastClick < 500) return; lastClick = Date.now();` followed
by the flash and beep.  Returns whether the feedback ran and the new
`lastClick`. -/
def doClickFeedback (lastClick now : ℚ) : Bool × ℚ :=
  if now - lastClick < 500 then (false, lastClick) else (true, now)

/-- One frame of the gesture checks of src/unnamed/part_000 (lines 326-341):
the blink check runs first and calls `doClickFeedback()`, then the mouth
check runs and calls `doClickFeedback()` again; both share `lastClick`.
`blinkElig` stands for `blinkReady && eyeGap < blinkBaseline * 0.65` and
`mouthElig` for `mouthReady && mouthGap > mouthBaseline * 1.6`.  Returns
which of the two calls actually produced feedback and the new
`lastClick`. -/
def p0FrameClicks (blinkElig mouthElig : Bool) (lastClick now : ℚ) :
    (Bool × Bool) × ℚ :=
  let r1 := if blinkElig then doClickFeedback lastClick now else (false, lastClick)
  let r2 := if mouthElig then doClickFeedback r1.2 now else (false, r1.2)
  ((r1.1, r2.1), r2.2)

/-- The per-frame face data of src/unnamed/part_001 that the pipeline
consumes: the mouth gap signal, whether the nose/iris landmarks needed for
the gaze mapping are present, and the normalized offsets `ndx`, `ndy`. -/
structure FaceData where
  mouthGap : ℚ
  hasIris : Bool
  ndx : ℚ
  ndy : ℚ
deriving DecidableEq

/-- Persistent state of src/unnamed/part_001: the smoothed cursor position,
the debounce timestamp `lastClick`, and the mouth baseline calibrator. -/
structure P1State where
  smoothX : ℚ
  smoothY : ℚ
  lastClick : ℚ
  mouthCal : CalibState
deriving DecidableEq

/-- Cursor target of one part_001 frame (lines 93-95 and 125-175): it
defaults to the current smoothed position ("stay where you are"), is
overwritten with the clamped mapped position when the face and iris
landmarks are present (`H_GAIN = 2.0`, `V_GAIN = 2.0`, `V_NEUTRAL = 0.05`,
`X_OFFSET = 0`, lines 158-169), and with the canvas center when no face is
detected (lines 172-174). -/
def p1Target (st : P1State) (face : Option FaceData) (w h : ℚ) : ℚ × ℚ :=
  match face with
  | none => (w / 2, h / 2)
  | some f =>
    if f.hasIris then
      (max 0 (min w (w / 2 - f.ndx * w * 2 + 0)),
       max 0 (min h (h / 2 + (f.ndy - 1/20) * h * 2)))
    else (st.smoothX, st.smoothY)

/-- One full frame of part_001's render loop (lines 83-186).  With a face:
if the mouth calibrator is not ready it ingests the mouth gap (lines
109-114), otherwise the mouth-click classifier runs (lines 115-123,
threshold `baseline * 1.7`, debounce 900 ms).  Without a face the whole
block is skipped.  The smoothed cursor then moves toward the frame's target
with `SMOOTH = 0.25` (lines 178-180).  Returns the new state and whether
the click fired. -/
def p1Frame (st : P1State) (face : Option FaceData) (now w h : ℚ) :
    P1State × Bool :=
  let step : CalibState × Bool × ℚ :=
    match face with
    | none => (st.mouthCal, false, st.lastClick)
    | some f =>
      if st.mouthCal.ready then
        if decide (f.mouthGap > st.mouthCal.baseline.getD 0 * (17/10))
            && decide (now - st.lastClick > 900)
        then (st.mouthCal, true, now)
        else (st.mouthCal, false, st.lastClick)
      else (calibIngest 40 st.mouthCal f.mouthGap, false, st.lastClick)
  let t := p1Target st face w h
  (⟨st.smoothX + (t.1 - st.smoothX) * (1/4),
    st.smoothY + (t.2 - st.smoothY) * (1/4),
    step.2.2, step.1⟩, step.2.1)

/-- Fallback (FaceMesh head-based) gaze target of the hybrid src/script.js
variant (lines 221-229): `fbX = w/2 - ndx*w*2.2`, `fbY = h/2 + ndy*h*2.0`,
both clamped to the canvas. -/
def fallbackTargetJS (w h ndx ndy : ℚ) : ℚ × ℚ :=
  (max 0 (min w (w / 2 - ndx * w * (11/5))),
   max 0 (min h (h / 2 + ndy * h * 2)))

/-- Gaze-source choice of the hybrid src/script.js variant (lines 232-250):
when the WebGazer sample is considered fresh its window coordinates are
normalized by the window size, mapped to the canvas and mirrored with no
clamp (`targetX = w - gazeX/winW*w`); otherwise the already clamped
fallback is mirrored. -/
def scriptChooseTarget (w h winW winH gazeX gazeY ndx ndy : ℚ)
    (haveWebGazer : Bool) : ℚ × ℚ :=
  if haveWebGazer then
    (w - gazeX / winW * w, gazeY / winH * h)
  else
    (w - (fallbackTargetJS w h ndx ndy).1, (fallbackTargetJS w h ndx ndy).2)

/-- `Date.now()` expressed on the monotonic clock: the epoch offset of the
session plus the milliseconds since page load.  The hybrid src/script.js
variant stores `lastGazeTime = Date.now()` in its WebGazer listener
(line 88). -/
def dateNow (epoch tMono : ℚ) : ℚ := epoch + tMono

/-- The freshness test of the hybrid src/script.js variant (line 236):
`haveWebGazer = (performance.now() - lastGazeTime) < 400`, where
`lastGazeTime` was written by the listener using `Date.now()` at monotonic
sample time `tSample`, while `now` is `performance.now()` — two different
clocks. -/
def scriptHaveWebGazer (epoch tMono tSample : ℚ) : Bool :=
  decide (tMono - dateNow epoch tSample < 400)

/-- The freshness test of the second src/unnamed/part_007 variant
(line 272): `haveWG = (now - lastGazeTime) < 350`, with both the sample
timestamp (line 155) and `now` (line 271) taken from `performance.now()`. -/
def p7HaveWG (tMono tSample : ℚ) : Bool := decide (tMono - tSample < 350)

/-- Horizontal mirror at width `w`: `x' = w - x`. -/
def mirror (w x : ℚ) : ℚ := w - x

/-- Horizontal cursor mapping of the second src/script.js variant
(lines 458-462): `targetX = w/2 - dx*w*1.8`, clamped to the canvas. -/
def v2TargetX (w dx : ℚ) : ℚ := max 0 (min w (w / 2 - dx * w * (9/5)))

/-- Displayed cursor x of the second src/script.js variant (line 470):
`cursor.style.left = canvas.width - smoothX`, taken at the smoothing fixed
point `smoothX = targetX` reached under a constant offset `dx`. -/
def v2DisplayX (w dx : ℚ) : ℚ := mirror w (v2TargetX w dx)

/-- Displayed cursor x of src/unnamed/part_001 (lines 164-182): the mirror
is folded into the mapping (`rawX = w/2 - ndx*w*2.0 + 0`, comment "mirror X
to match mirrored video"), clamped, and the smoothed value is displayed
directly, again at the smoothing fixed point. -/
def p1DisplayX (w dx : ℚ) : ℚ := max 0 (min w (w / 2 - dx * w * 2 + 0))

end FaceTracker

namespace FaceTracker

/-- Helper: folding `calibIngest` over any further samples from a ready
state changes nothing (the source skips the whole calibration block once
`ready` is set). -/
theorem calibIngest_ready_noop (limit : ℕ) (s : CalibState) (x : ℚ)
    (h : s.ready = true) : calibIngest limit s x = s := by
  simp [calibIngest, h]

theorem calib_foldl_ready_noop (limit : ℕ) (s : CalibState)
    (h : s.ready = true) (l : List ℚ) :
    l.foldl (calibIngest limit) s = s := by
  induction l with
  | nil => rfl
  | cons x xs ih => simp [List.foldl_cons, calibIngest_ready_noop limit s x h, ih]

/-- Helper: while calibrating, the state just accumulates the samples. -/
theorem calib_foldl_accum (limit : ℕ) :
    ∀ (l p : List ℚ), p.length + l.length ≤ limit →
    List.foldl (calibIngest limit) ⟨p, none, false⟩ l = ⟨p ++ l, none, false⟩ := by
  intro l
  induction l with
  | nil => intro p _; simp
  | cons x xs ih =>
    intro p hlen
    simp only [List.length_cons] at hlen
    have hnot : ¬ (p ++ [x]).length > limit := by
      simp only [List.length_append, List.length_cons, List.length_nil]
      omega
    have hstep : calibIngest limit ⟨p, none, false⟩ x = ⟨p ++ [x], none, false⟩ := by
      simp only [calibIngest]
      rw [if_neg (by simp), if_neg hnot]
    have hrec := ih (p ++ [x])
      (by simp only [List.length_append, List.length_cons, List.length_nil]; omega)
    rw [List.foldl_cons, hstep, hrec]
    simp

/-- Helper: feeding samples number `1 … limit+1` freezes the calibrator at
the mean of exactly those `limit+1` samples. -/
theorem calib_freeze (limit : ℕ) (l : List ℚ) (h : l.length = limit + 1) :
    List.foldl (calibIngest limit) calibInit l =
      ⟨l, some (l.sum / ((limit + 1 : ℕ) : ℚ)), true⟩ := by
  have htake : (l.take limit).length = limit := by
    simp only [List.length_take]; omega
  obtain ⟨x, hx⟩ : ∃ x, l.drop limit = [x] := by
    apply List.length_eq_one.mp
    simp only [List.length_drop]; omega
  have hfull : l.take limit ++ [x] = l := by
    rw [← hx, List.take_append_drop]
  have hsplit : List.foldl (calibIngest limit) calibInit l
      = List.foldl (calibIngest limit) calibInit (l.take limit ++ [x]) := by
    rw [hfull]
  rw [hsplit, List.foldl_append]
  have hacc : List.foldl (calibIngest limit) ⟨[], none, false⟩ (l.take limit)
      = ⟨[] ++ l.take limit, none, false⟩ :=
    calib_foldl_accum limit (l.take limit) [] (by simp [htake])
  show List.foldl (calibIngest limit)
      (List.foldl (calibIngest limit) ⟨[], none, false⟩ (l.take limit)) [x] = _
  rw [hacc]
  simp only [List.nil_append, List.foldl_cons, List.foldl_nil]
  have hlen2 : (l.take limit ++ [x]).length > limit := by
    simp only [List.length_append, List.length_cons, List.length_nil, htake]
    omega
  simp [calibIngest, hlen2, hfull, h]

/-- C2: For every input sequence of `N + k` samples (`k ≥ 0`, `N = limit + 1`
the configured calibration count: the source pushes a sample and freezes as
soon as `samples.length > limit`, so exactly `limit + 1` samples are
consumed), the frozen baseline equals the arithmetic mean of exactly the
first `N` samples, the stored sample sequence is exactly those first `N`
samples, and the ready flag is set — independent of `k`; moreover once
`ready` is set, every further ingest call is a no-op leaving the whole
calibrator state (baseline, samples, ready) unchanged. -/
theorem c2_calibrator_mean_and_freeze (limit : ℕ) (L : List ℚ)
    (h : limit + 1 ≤ L.length) :
    L.foldl (calibIngest limit) calibInit =
      ⟨L.take (limit + 1),
       some ((L.take (limit + 1)).sum / ((limit + 1 : ℕ) : ℚ)), true⟩
    ∧ ∀ (s : CalibState) (x : ℚ), s.ready = true → calibIngest limit s x = s := by
  refine ⟨?_, fun s x hs => calibIngest_ready_noop limit s x hs⟩
  have htake : (L.take (limit + 1)).length = limit + 1 := by
    simp only [List.length_take]; omega
  have hsplit : List.foldl (calibIngest limit) calibInit L
      = List.foldl (calibIngest limit) calibInit
          (L.take (limit + 1) ++ L.drop (limit + 1)) := by
    rw [List.take_append_drop]
  rw [hsplit, List.foldl_append, calib_freeze limit (L.take (limit + 1)) htake]
  exact calib_foldl_ready_noop limit _ rfl _

/-- Witness for C2 at `limit = 1`, samples `[2, 4, 6]` (so `N = 2`, `k = 1`):
the calibrator freezes at samples `[2, 4]` with baseline `(2 + 4) / 2`. -/
theorem c2_witness :
    ([2, 4, 6] : List ℚ).foldl (calibIngest 1) calibInit =
      ⟨([2, 4, 6] : List ℚ).take (1 + 1),
       some ((([2, 4, 6] : List ℚ).take (1 + 1)).sum / ((1 + 1 : ℕ) : ℚ)), true⟩
    ∧ ∀ (s : CalibState) (x : ℚ), s.ready = true → calibIngest 1 s x = s :=
  c2_calibrator_mean_and_freeze 1 [2, 4, 6] (by decide)

/-- C5: a signal exactly equal to `baseline * factor` fires neither
classifier: the below-threshold (blink) test of the second src/script.js
variant is the strict comparison `signal < baseline * 0.55` and the
above-threshold (mouth-open) test of src/unnamed/part_001 is the strict
comparison `signal > baseline * 1.7`, so equality at the boundary never
produces an activation, for any baseline and any timestamps. -/
theorem c5_boundary_strict (b now lastClick : ℚ) :
    blinkFiredJs2 (b * (11/20)) b now lastClick = false
    ∧ mouthFiredP1 (b * (17/10)) b now lastClick = false := by
  constructor
  · simp [blinkFiredJs2, lt_irrefl]
  · simp [mouthFiredP1, lt_irrefl]

/-- C10: the hybrid src/script.js variant applies the smoothing update twice
per frame to the same target (first with factor `0.25`, then with `0.25`
when the external gaze is fresh and `0.15` otherwise); the composition
equals a single exponential smoothing step with effective factor
`1 - (1 - 0.25) * (1 - lerp)` — that is `7/16 = 0.4375` when fresh and
`29/80 = 0.3625` otherwise. -/
theorem c10_double_smoothing_equiv (s target : ℚ) (fresh : Bool) :
    scriptDoubleSmooth s target fresh = singleSmoothEffective s target fresh
    ∧ (1 - (1 - (1 : ℚ)/4) * (1 - 1/4) = 7/16)
    ∧ (1 - (1 - (1 : ℚ)/4) * (1 - 3/20) = 29/80) := by
  refine ⟨?_, by norm_num, by norm_num⟩
  cases fresh <;> simp [scriptDoubleSmooth, singleSmoothEffective] <;> ring

/-- Helper: closed form of the smoothing residual,
`target - currentₙ = (target - current₀) * (1 - alpha) ^ n`. -/
theorem smoothIter_residual (target alpha current : ℚ) (n : ℕ) :
    target - smoothIter target alpha current n
      = (target - current) * (1 - alpha) ^ n := by
  induction n with
  | zero => simp [smoothIter]
  | succ n ih =>
    have step : target - smoothIter target alpha current (n + 1)
        = (target - smoothIter target alpha current n) * (1 - alpha) := by
      simp only [smoothIter, smooth]; ring
    rw [step, ih, pow_succ]; ring

/-- C6: for every `alpha ∈ (0,1]`, every starting position and every constant
target, one axis of the update `current += (target - current) * alpha`
(a) shrinks the distance `|target - current|` by the factor `1 - alpha` each
step, (b) never overshoots — the residual `target - current` keeps the sign
it started with (their product stays nonnegative) — and (c) for every
`ε > 0` comes within `ε` of the target after finitely many iterations. -/
theorem c6_smoothing_convergence (alpha current target : ℚ)
    (h0 : 0 < alpha) (h1 : alpha ≤ 1) :
    (∀ n, |target - smoothIter target alpha current (n + 1)|
        = (1 - alpha) * |target - smoothIter target alpha current n|)
    ∧ (∀ n, 0 ≤ (target - smoothIter target alpha current n) * (target - current))
    ∧ (∀ ε : ℚ, 0 < ε → ∃ N, |target - smoothIter target alpha current N| < ε) := by
  have ha : 0 ≤ 1 - alpha := by linarith
  have hres := smoothIter_residual target alpha current
  refine ⟨?_, ?_, ?_⟩
  · intro n
    have step : target - smoothIter target alpha current (n + 1)
        = (target - smoothIter target alpha current n) * (1 - alpha) := by
      simp only [smoothIter, smooth]; ring
    rw [step, abs_mul, abs_of_nonneg ha]; ring
  · intro n
    rw [hres n]
    have hsq : (target - current) * (1 - alpha) ^ n * (target - current)
        = (target - current) ^ 2 * (1 - alpha) ^ n := by ring
    rw [hsq]
    positivity
  · intro ε hε
    by_cases hc : target - current = 0
    · exact ⟨0, by rw [hres 0, hc]; simpa using hε⟩
    · have habs : 0 < |target - current| := abs_pos.mpr hc
      obtain ⟨N, hN⟩ := exists_pow_lt_of_lt_one (x := ε / |target - current|)
        (y := 1 - alpha) (div_pos hε habs) (by linarith)
      refine ⟨N, ?_⟩
      rw [hres N, abs_mul, abs_pow, abs_of_nonneg ha]
      calc |target - current| * (1 - alpha) ^ N
          < |target - current| * (ε / |target - current|) :=
            mul_lt_mul_of_pos_left hN habs
        _ = ε := by field_simp

/-- Witness for C6 at `alpha = 1/4`, `current = 0`, `target = 1`: the first
step shrinks the residual by the factor `3/4`. -/
theorem c6_witness :
    |(1 : ℚ) - smoothIter 1 (1/4) 0 (0 + 1)|
      = (1 - 1/4) * |(1 : ℚ) - smoothIter 1 (1/4) 0 0| :=
  (c6_smoothing_convergence (1/4) 0 1 (by norm_num) (by norm_num)).1 0

/-- Helper: within the shared debounce window nothing fires in part_010,
whatever the signals and calibration state. -/
theorem p10_no_fire_within (st : P10State) (e m now : ℚ)
    (h : now - st.lastBlinkOrMouth ≤ 900) :
    (p10Classify st e m now).1 = false := by
  have hd : decide (now - st.lastBlinkOrMouth > 900) = false := by
    simp only [decide_eq_false_iff_not]
    exact not_lt.mpr h
  simp [p10Classify, hd]

/-- Helper: a fired frame requires the debounce window to be open. -/
theorem p10_fire_gap (st : P10State) (e m now : ℚ)
    (h : (p10Classify st e m now).1 = true) :
    now - st.lastBlinkOrMouth > 900 := by
  by_contra hc
  rw [p10_no_fire_within st e m now (not_lt.mp hc)] at h
  exact Bool.false_ne_true h

/-- Helper: a fired frame stores its own timestamp into the shared
`lastBlinkOrMouth`. -/
theorem p10_fired_sets_last (st : P10State) (e m now : ℚ)
    (h : (p10Classify st e m now).1 = true) :
    ((p10Classify st e m now).2).lastBlinkOrMouth = now := by
  simp only [p10Classify] at h ⊢
  simp only [h]
  simp

/-- Helper: a non-fired frame leaves the shared timestamp untouched. -/
theorem p10_notfired_keeps_last (st : P10State) (e m now : ℚ)
    (h : (p10Classify st e m now).1 = false) :
    ((p10Classify st e m now).2).lastBlinkOrMouth = st.lastBlinkOrMouth := by
  simp only [p10Classify] at h ⊢
  simp only [h]
  simp

/-- Helper: every activation time of a part_010 run exceeds the initial
shared timestamp by more than the 900 ms debounce. -/
theorem p10_act_gap (l : List (ℚ × ℚ × ℚ)) :
    ∀ (st : P10State), ∀ x ∈ p10ActTimes st l,
      x - st.lastBlinkOrMouth > 900 := by
  induction l with
  | nil => intro st x hx; simp [p10ActTimes] at hx
  | cons hd rest ih =>
    obtain ⟨e, m, t⟩ := hd
    intro st x hx
    cases hf : (p10Classify st e m t).1 with
    | false =>
      rw [p10ActTimes, if_neg (by simp [hf])] at hx
      have := ih (p10Classify st e m t).2 x hx
      rwa [p10_notfired_keeps_last st e m t hf] at this
    | true =>
      rw [p10ActTimes, if_pos hf] at hx
      rcases List.mem_cons.mp hx with rfl | hx'
      · exact p10_fire_gap st e m x hf
      · have h2 := ih (p10Classify st e m t).2 x hx'
        rw [p10_fired_sets_last st e m t hf] at h2
        have h1 := p10_fire_gap st e m t hf
        linarith

/-- Helper: the activation times of a part_010 run are pairwise more than
900 ms apart. -/
theorem p10_act_pairwise (l : List (ℚ × ℚ × ℚ)) :
    ∀ (st : P10State),
      List.Pairwise (fun a b => b - a > 900) (p10ActTimes st l) := by
  induction l with
  | nil => intro st; simp [p10ActTimes]
  | cons hd rest ih =>
    obtain ⟨e, m, t⟩ := hd
    intro st
    cases hf : (p10Classify st e m t).1 with
    | false => rw [p10ActTimes, if_neg (by simp [hf])]; exact ih _
    | true =>
      rw [p10ActTimes, if_pos hf]
      refine List.pairwise_cons.mpr ⟨?_, ih _⟩
      intro x hx
      have hg := p10_act_gap rest (p10Classify st e m t).2 x hx
      rwa [p10_fired_sets_last st e m t hf] at hg

/-- C1: in part_010, for every sequence of classify calls with strictly
increasing timestamps, no two activations occur less than the 900 ms
debounce apart (they are pairwise more than 900 ms apart); an activation at
time `t` sets the shared `lastBlinkOrMouth` to `t`; a frame with
`now - lastBlinkOrMouth ≤ 900` cannot fire regardless of the signals; and
in the end-to-end scenario — eye baseline 10, factor 0.55, two fire-eligible
frames (eyeGap 3) arriving 100 ms apart with debounce 900 ms — exactly the
first one fires. -/
theorem c1_debounce_window :
    (∀ (st : P10State) (inputs : List (ℚ × ℚ × ℚ)),
        List.Chain' (· < ·) (inputs.map (fun p => p.2.2)) →
        List.Pairwise (fun a b => b - a > 900) (p10ActTimes st inputs))
    ∧ (∀ (st : P10State) (e m now : ℚ), now - st.lastBlinkOrMouth ≤ 900 →
        (p10Classify st e m now).1 = false)
    ∧ (∀ (st : P10State) (e m now : ℚ), (p10Classify st e m now).1 = true →
        ((p10Classify st e m now).2).lastBlinkOrMouth = now)
    ∧ p10ActTimes c1ScenarioState [(3, 0, 1000), (3, 0, 1100)] = [1000] := by
  refine ⟨fun st inputs _ => p10_act_pairwise inputs st,
    fun st e m now h => p10_no_fire_within st e m now h,
    fun st e m now h => p10_fired_sets_last st e m now h, ?_⟩
  norm_num [p10ActTimes, p10Classify, calibIngest, calibInit, c1ScenarioState]

/-- Witness for C1: the two-frame scenario run satisfies the pairwise
debounce-gap property, and a frame 500 ms after the initial timestamp with a
fire-eligible blink signal does not fire. -/
theorem c1_witness :
    List.Pairwise (fun a b => b - a > 900)
      (p10ActTimes c1ScenarioState [(3, 0, 1000), (3, 0, 1100)])
    ∧ (p10Classify c1ScenarioState 3 0 500).1 = false :=
  ⟨c1_debounce_window.1 c1ScenarioState [(3, 0, 1000), (3, 0, 1100)]
      (by norm_num),
   c1_debounce_window.2.1 c1ScenarioState 3 0 500 (by norm_num [c1ScenarioState])⟩

/-- C8: a part_001 frame on which the Landmark Source returns no face leaves
the whole classifier state unchanged — the mouth calibrator (samples, ready
flag, baseline) and the `lastClick` debounce timestamp — produces no
activation, and its cursor target is the defined center default
`(w/2, h/2)` (one of the two allowed outcomes: held previous value or
center default). -/
theorem c8_no_face_frame (st : P1State) (now w h : ℚ) :
    (p1Frame st none now w h).1.mouthCal = st.mouthCal
    ∧ (p1Frame st none now w h).1.lastClick = st.lastClick
    ∧ (p1Frame st none now w h).2 = false
    ∧ (p1Target st none w h = (st.smoothX, st.smoothY)
       ∨ p1Target st none w h = (w / 2, h / 2)) :=
  ⟨rfl, rfl, rfl, Or.inr rfl⟩

/-- C9: the blink and mouth classifiers share one activation timestamp.
In part_010: any frame within 900 ms of the shared `lastBlinkOrMouth` fires
neither gesture; a fired frame overwrites the single shared timestamp; and
when the blink test alone is satisfied the frame fires whatever the mouth
signal is (the mouth check is guarded by `!fired`).  In part_000: the two
`doClickFeedback()` calls of one frame never both run; when both gestures
are eligible and the 500 ms window is open, the blink call produces the
feedback and the mouth call is suppressed by the timestamp the blink call
just wrote; within the window neither call runs. -/
theorem c9_shared_timestamp :
    (∀ (st : P10State) (e m now : ℚ), now - st.lastBlinkOrMouth ≤ 900 →
        (p10Classify st e m now).1 = false)
    ∧ (∀ (st : P10State) (e m now : ℚ), (p10Classify st e m now).1 = true →
        ((p10Classify st e m now).2).lastBlinkOrMouth = now)
    ∧ (∀ (st : P10State) (e m now : ℚ),
        (calibIngest 60 st.eyeCal e).ready = true →
        e < (calibIngest 60 st.eyeCal e).baseline.getD 0 * (11/20) →
        now - st.lastBlinkOrMouth > 900 →
        (p10Classify st e m now).1 = true)
    ∧ (∀ (bE mE : Bool) (last now : ℚ),
        ¬((p0FrameClicks bE mE last now).1.1 = true
          ∧ (p0FrameClicks bE mE last now).1.2 = true))
    ∧ (∀ (last now : ℚ), 500 ≤ now - last →
        p0FrameClicks true true last now = ((true, false), now))
    ∧ (∀ (bE mE : Bool) (last now : ℚ), now - last < 500 →
        p0FrameClicks bE mE last now = ((false, false), last)) := by
  refine ⟨fun st e m now h => p10_no_fire_within st e m now h,
    fun st e m now h => p10_fired_sets_last st e m now h, ?_, ?_, ?_, ?_⟩
  · intro st e m now h1 h2 h3
    have hd2 : decide (e < (calibIngest 60 st.eyeCal e).baseline.getD 0 * (11/20))
        = true := decide_eq_true h2
    have hd3 : decide (now - st.lastBlinkOrMouth > 900) = true := decide_eq_true h3
    simp [p10Classify, h1, hd2, hd3]
  · intro bE mE last now
    cases bE <;> cases mE <;>
      simp only [p0FrameClicks, doClickFeedback] <;>
      split_ifs with h1 h2 <;> simp_all
  · intro last now h
    have h1 : ¬(now - last < 500) := not_lt.mpr h
    have h2 : now - now < 500 := by norm_num
    simp [p0FrameClicks, doClickFeedback, h1, h2]
  · intro bE mE last now h
    cases bE <;> cases mE <;> simp [p0FrameClicks, doClickFeedback, h]

/-- Witness for C9: with both gestures eligible 600 ms after the previous
activation, part_000 produces exactly the blink feedback and updates the
shared timestamp. -/
theorem c9_witness :
    p0FrameClicks true true 0 600 = ((true, false), 600) :=
  c9_shared_timestamp.2.2.2.2.1 0 600 (by norm_num)

/-- Helper: a clamp `max lo (min hi x)` stays between its bounds. -/
theorem clamp_mem (lo hi x : ℚ) (h : lo ≤ hi) :
    lo ≤ max lo (min hi x) ∧ max lo (min hi x) ≤ hi :=
  ⟨le_max_left lo (min hi x), max_le h (min_le_left hi x)⟩

/-- C3 counterexample: the claim fails on the hybrid src/script.js variant.
With a 100×100 canvas and window, a fresh WebGazer sample at
`gazeX = -100` (WebGazer predictions are stored unfiltered, lines 84-89)
gives target x-coordinate `100 - (-100/100)*100 = 200`, outside
`[0, viewport.w]` — the external-gaze branch has no clamp. -/
theorem c3_counterexample :
    (scriptChooseTarget 100 100 100 100 (-100) 50 0 0 true).1 = 200
    ∧ ¬((scriptChooseTarget 100 100 100 100 (-100) 50 0 0 true).1 ≤ 100) := by
  norm_num [scriptChooseTarget]

/-- C3 amended: the landmark-based paths are clamped — the hybrid
src/script.js fallback target always lies in `[0,w] × [0,h]`, the chosen
target on every frame where the WebGazer sample is not fresh lies in
`[0,w] × [0,h]`, and in part_001 both the per-frame target and the smoothed
displayed position stay in `[0,w] × [0,h]` for arbitrary landmark inputs —
but the external-gaze branch of the hybrid variant is unclamped and its
target can leave the viewport (see the counterexample). -/
theorem c3_bounds_amended :
    (∀ w h ndx ndy : ℚ, 0 ≤ w → 0 ≤ h →
        (0 ≤ (fallbackTargetJS w h ndx ndy).1
         ∧ (fallbackTargetJS w h ndx ndy).1 ≤ w)
        ∧ (0 ≤ (fallbackTargetJS w h ndx ndy).2
           ∧ (fallbackTargetJS w h ndx ndy).2 ≤ h))
    ∧ (∀ w h winW winH gx gy ndx ndy : ℚ, 0 ≤ w → 0 ≤ h →
        (0 ≤ (scriptChooseTarget w h winW winH gx gy ndx ndy false).1
         ∧ (scriptChooseTarget w h winW winH gx gy ndx ndy false).1 ≤ w)
        ∧ (0 ≤ (scriptChooseTarget w h winW winH gx gy ndx ndy false).2
           ∧ (scriptChooseTarget w h winW winH gx gy ndx ndy false).2 ≤ h))
    ∧ (∀ (st : P1State) (face : Option FaceData) (now w h : ℚ),
        0 ≤ w → 0 ≤ h →
        0 ≤ st.smoothX → st.smoothX ≤ w → 0 ≤ st.smoothY → st.smoothY ≤ h →
        (0 ≤ (p1Target st face w h).1 ∧ (p1Target st face w h).1 ≤ w)
        ∧ (0 ≤ (p1Target st face w h).2 ∧ (p1Target st face w h).2 ≤ h)
        ∧ (0 ≤ (p1Frame st face now w h).1.smoothX
           ∧ (p1Frame st face now w h).1.smoothX ≤ w)
        ∧ (0 ≤ (p1Frame st face now w h).1.smoothY
           ∧ (p1Frame st face now w h).1.smoothY ≤ h)) := by
  have fb : ∀ w h ndx ndy : ℚ, 0 ≤ w → 0 ≤ h →
      (0 ≤ (fallbackTargetJS w h ndx ndy).1
       ∧ (fallbackTargetJS w h ndx ndy).1 ≤ w)
      ∧ (0 ≤ (fallbackTargetJS w h ndx ndy).2
         ∧ (fallbackTargetJS w h ndx ndy).2 ≤ h) := by
    intro w h ndx ndy hw hh
    exact ⟨clamp_mem 0 w _ hw, clamp_mem 0 h _ hh⟩
  refine ⟨fb, ?_, ?_⟩
  · intro w h winW winH gx gy ndx ndy hw hh
    obtain ⟨⟨hx0, hxw⟩, hy⟩ := fb w h ndx ndy hw hh
    refine ⟨⟨?_, ?_⟩, ?_⟩
    · simp only [scriptChooseTarget, Bool.false_eq_true, if_false]
      linarith
    · simp only [scriptChooseTarget, Bool.false_eq_true, if_false]
      linarith
    · simp only [scriptChooseTarget, Bool.false_eq_true, if_false]
      exact hy
  · intro st face now w h hw hh hx0 hxw hy0 hyh
    have htgt : (0 ≤ (p1Target st face w h).1 ∧ (p1Target st face w h).1 ≤ w)
        ∧ (0 ≤ (p1Target st face w h).2 ∧ (p1Target st face w h).2 ≤ h) := by
      match face with
      | none =>
        constructor <;> constructor <;> simp [p1Target] <;> linarith
      | some f =>
        by_cases hi : f.hasIris = true
        · simp only [p1Target, hi, if_pos]
          exact ⟨clamp_mem 0 w _ hw, clamp_mem 0 h _ hh⟩
        · simp only [p1Target, hi, if_false]
          exact ⟨⟨hx0, hxw⟩, ⟨hy0, hyh⟩⟩
    obtain ⟨⟨ht1, ht2⟩, ht3, ht4⟩ := htgt
    have hfx : (p1Frame st face now w h).1.smoothX
        = st.smoothX + ((p1Target st face w h).1 - st.smoothX) * (1/4) := rfl
    have hfy : (p1Frame st face now w h).1.smoothY
        = st.smoothY + ((p1Target st face w h).2 - st.smoothY) * (1/4) := rfl
    refine ⟨⟨ht1, ht2⟩, ⟨ht3, ht4⟩, ⟨?_, ?_⟩, ⟨?_, ?_⟩⟩
    · rw [hfx]; linarith
    · rw [hfx]; linarith
    · rw [hfy]; linarith
    · rw [hfy]; linarith

/-- Witness for C3 (amended): at a 100×80 canvas, an extreme offset
`ndx = 5` and a held position at the center, every bound holds on the
frame's outputs. -/
theorem c3_witness :
    (0 ≤ (fallbackTargetJS 100 80 5 (-7)).1 ∧ (fallbackTargetJS 100 80 5 (-7)).1 ≤ 100)
    ∧ (0 ≤ (fallbackTargetJS 100 80 5 (-7)).2 ∧ (fallbackTargetJS 100 80 5 (-7)).2 ≤ 80) :=
  c3_bounds_amended.1 100 80 5 (-7) (by norm_num) (by norm_num)

/-- C4: the claim describes the intended freshness check and
src/unnamed/part_007 implements it exactly — `useExternal = true` iff
`now - sampleTime < 350` on one clock — but the hybrid src/script.js
variant records the sample time with `Date.now()` (epoch milliseconds,
line 88) and compares it against `performance.now()` (milliseconds since
page load, line 236).  At epoch offset `1.7e12`, with the only sample
received at monotonic time 0 and a frame at monotonic time 10000, the
sample is 10000 ms old — far beyond the 400 ms window — yet the code
computes `10000 - (1.7e12 + 0) < 400` and still selects the external
estimate, contradicting its own comment `"fresh" in the last 0.4s`. -/
theorem c4_freshness_clock_bug :
    (scriptHaveWebGazer 1700000000000 10000 0 = true ∧ ¬((10000 : ℚ) - 0 < 400))
    ∧ (∀ t ts : ℚ, p7HaveWG t ts = true ↔ t - ts < 350) := by
  refine ⟨⟨?_, by norm_num⟩, ?_⟩
  · simp only [scriptHaveWebGazer, dateNow, decide_eq_true_eq]
    norm_num
  · intro t ts
    simp [p7HaveWG]

/-- C7 counterexample: mirroring is not applied exactly once in every
variant.  Moving the normalized offset from `0` to `1/10` moves the
part_001 cursor left (`50 → 30`, one mirror) but moves the second
src/script.js variant's cursor right (`50 → 68`): that variant mirrors in
its mapping (`w/2 - dx*w*1.8`) and mirrors again at display
(`canvas.width - smoothX`), so its pipeline is not orientation-reversing,
refuting the exactly-once claim at this concrete input. -/
theorem c7_counterexample :
    p1DisplayX 100 (1/10) < p1DisplayX 100 0
    ∧ ¬(v2DisplayX 100 (1/10) < v2DisplayX 100 0)
    ∧ v2DisplayX 100 0 = 50 ∧ v2DisplayX 100 (1/10) = 68 := by
  norm_num [p1DisplayX, v2DisplayX, v2TargetX, mirror]

/-- Helper: in the linear (unclamped) region the part_001 display is
`50 - 200 dx` — a single mirror of the base map. -/
theorem p1DisplayX_eval (d : ℚ) (h1 : -(1/4) ≤ d) (h2 : d ≤ 1/4) :
    p1DisplayX 100 d = 50 - 200 * d := by
  unfold p1DisplayX
  rw [min_eq_right (by linarith), max_eq_right (by linarith)]
  ring

/-- Helper: in the linear region the second-variant display is
`50 + 180 dx` — the two mirrors cancel. -/
theorem v2DisplayX_eval (d : ℚ) (h1 : -(1/4) ≤ d) (h2 : d ≤ 1/4) :
    v2DisplayX 100 d = 50 + 180 * d := by
  unfold v2DisplayX v2TargetX mirror
  rw [min_eq_right (by linarith), max_eq_right (by linarith)]
  ring

/-- C7 amended: mirroring is applied exactly once in part_001 — its
display map is one mirror of the unmirrored base map, hence
orientation-reversing in the offset — but twice in the second src/script.js
variant, whose display map is a mirror of a mirror of the base map, hence
orientation-preserving; the two variants therefore move the cursor in
opposite directions for the same gaze offset. -/
theorem c7_mirroring_amended :
    (∀ w dx : ℚ, p1DisplayX w dx = max 0 (min w (mirror w (w / 2 + dx * w * 2))))
    ∧ (∀ w dx : ℚ,
        v2DisplayX w dx = mirror w (max 0 (min w (mirror w (w / 2 + dx * w * (9/5))))))
    ∧ (∀ d1 d2 : ℚ, -(1/4) ≤ d1 → d2 ≤ 1/4 → d1 < d2 →
        p1DisplayX 100 d2 < p1DisplayX 100 d1)
    ∧ (∀ d1 d2 : ℚ, -(1/4) ≤ d1 → d2 ≤ 1/4 → d1 < d2 →
        v2DisplayX 100 d1 < v2DisplayX 100 d2) := by
  refine ⟨?_, ?_, ?_, ?_⟩
  · intro w dx
    unfold p1DisplayX mirror
    ring_nf
  · intro w dx
    unfold v2DisplayX v2TargetX mirror
    ring_nf
  · intro d1 d2 h1 h2 h12
    rw [p1DisplayX_eval d1 h1 (by linarith), p1DisplayX_eval d2 (by linarith) h2]
    linarith
  · intro d1 d2 h1 h2 h12
    rw [v2DisplayX_eval d1 h1 (by linarith), v2DisplayX_eval d2 (by linarith) h2]
    linarith

/-- Witness for C7 (amended): the double-mirrored variant moves the cursor
to the right when the offset grows from `0` to `1/10`. -/
theorem c7_witness : v2DisplayX 100 0 < v2DisplayX 100 (1/10) :=
  c7_mirroring_amended.2.2.2 0 (1/10) (by norm_num) (by norm_num) (by norm_num)

end FaceTracker
